import Mathlib

/-!
Verification development for the real-time event delivery subsystem of the
lapis-chat backend (cache layer, event bus, connection registry, connection
session).  Python sources are shallowly embedded as pure Lean functions over
explicit state; asynchronous interleaving is embedded as a step relation.
-/

namespace Lapis

/-- Wire-safe JSON values, the image of Python `json.dumps`/`json.loads`.
Payloads published on the bus and values stored in Redis are JSON documents;
we keep the parsed AST (`dumps` and `loads` are mutually inverse on it). -/
inductive JsonV where
  | null : JsonV
  | bool (b : Bool) : JsonV
  | num (n : Int) : JsonV
  | str (s : String) : JsonV
  | arr (elems : List JsonV) : JsonV
  | obj (fields : List (String × JsonV)) : JsonV

/-- One `publish` call on the event bus: channel name and serialized message
(`EventHandler._dispatch`, events.py lines 48-52). -/
structure Publish where
  channel : String
  message : JsonV

/-- Channel naming scheme of the event bus: `EventHandler._apply_scheme`
(events.py line 45-46): `f"event_{scheme}:{ ','.join(values)}"`. -/
def eventScheme (scheme : String) (values : List String) : String :=
  "event_" ++ scheme ++ ":" ++ String.intercalate "," values

/-- Channel for user update events (`EventHandler.channel_user_update`). -/
def channel_user_update (user_id : String) : String :=
  eventScheme "user_update" [user_id]

/-- Channel for user deletion events (`EventHandler.channel_user_delete`). -/
def channel_user_delete (user_id : String) : String :=
  eventScheme "user_delete" [user_id]

/-- Channel for unfriend events (`EventHandler.channel_friend_delete`). -/
def channel_friend_delete (user_id : String) : String :=
  eventScheme "friend_delete" [user_id]

/-- Channel for friend create events (`EventHandler.channel_friend_create`). -/
def channel_friend_create (user_id : String) : String :=
  eventScheme "friend_create" [user_id]

/-- Channel for friend request receive events
(`EventHandler.channel_friend_request_receive`). -/
def channel_friend_request_receive (recipient_id : String) : String :=
  eventScheme "friend_request_receive" [recipient_id]

/-- Message destination type (`MessageDestinationType`, models/messages.py):
an IntEnum with DIRECT = 0 and GROUP = 1. -/
inductive MessageDestinationType where
  | DIRECT : MessageDestinationType
  | GROUP : MessageDestinationType
deriving DecidableEq, Repr

/-- Numeric value of the destination type rendered into channel names, per the
spec's scheme `event_message_create:<dest_type>,<dest_id>` with DIRECT = 0. -/
def MessageDestinationType.render : MessageDestinationType → String
  | .DIRECT => "0"
  | .GROUP => "1"

/-- Modelled from the spec: `EventHandler.channel_message_create` is called
from connections.py line 110 but its definition is absent from src; the spec
names the channel `event_message_create:<dest_type>,<dest_id>`. -/
def channel_message_create (dest_type : MessageDestinationType) (dest_id : String) : String :=
  eventScheme "message_create" [dest_type.render, dest_id]

/-- Modelled from the spec: `EventHandler.channel_message_update` is called
from connections.py line 111 but its definition is absent from src; the spec
names the channel `event_message_update:<dest_type>,<dest_id>`. -/
def channel_message_update (dest_type : MessageDestinationType) (dest_id : String) : String :=
  eventScheme "message_update" [dest_type.render, dest_id]

/-- Modelled from the spec: `EventHandler.channel_message_delete` is called
from connections.py line 112 but its definition is absent from src; the spec
names the channel `event_message_delete:<dest_type>,<dest_id>`. -/
def channel_message_delete (dest_type : MessageDestinationType) (dest_id : String) : String :=
  eventScheme "message_delete" [dest_type.render, dest_id]

/-- Publishes performed by `EventHandler.dispatch_friend_create` (events.py
lines 98-105): one publish per endpoint of the edge, each carrying the other
party's id. -/
def dispatch_friend_create (operating_user_id target_id : String) : List Publish :=
  [ { channel := channel_friend_create operating_user_id,
      message := JsonV.obj [("user_id", JsonV.str target_id)] },
    { channel := channel_friend_create target_id,
      message := JsonV.obj [("user_id", JsonV.str operating_user_id)] } ]

/-- Publishes performed by `EventHandler.dispatch_friend_delete` (events.py
lines 107-109). -/
def dispatch_friend_delete (operating_user_id target_id : String) : List Publish :=
  [ { channel := channel_friend_delete operating_user_id,
      message := JsonV.obj [("user_id", JsonV.str target_id)] },
    { channel := channel_friend_delete target_id,
      message := JsonV.obj [("user_id", JsonV.str operating_user_id)] } ]

/-- Channels subscribed for a connection by
`ConnectionManager._subscribe_event_channels_worker` (connections.py lines
89-115), in subscription order: per friend the friend's user_update and
user_delete channels, then the user's own friend channels, then the user's
own direct-message channels.  `friendIds` is the list of the friends' user
ids obtained from the fetched friend list. -/
def subscribeChannels (user_id : String) (friendIds : List String) : List String :=
  (friendIds.flatMap fun friend_id =>
    [channel_user_update friend_id, channel_user_delete friend_id]) ++
  [ channel_friend_create user_id,
    channel_friend_delete user_id,
    channel_friend_request_receive user_id,
    channel_message_create MessageDestinationType.DIRECT user_id,
    channel_message_update MessageDestinationType.DIRECT user_id,
    channel_message_delete MessageDestinationType.DIRECT user_id ]

/-- A user authorized with its credentials (`AuthorizedUser`, models/users.py
lines 53-86): the `User` fields plus the login password and the authorization
token.  UUIDs and datetimes are kept in their serialized string form. -/
structure AuthorizedUser where
  id : String
  username : String
  created_at : String
  fullname : Option String
  bio : Option String
  password : String
  token : String
deriving DecidableEq, Repr

/-- JSON image of an optional string field (pydantic serializes None as
JSON null). -/
def optStrJson : Option String → JsonV
  | none => JsonV.null
  | some s => JsonV.str s

/-- Database-compatible serialization of an `AuthorizedUser`
(`BaseDatabaseModel.model_dump_database` with by_alias=True, models/base.py
lines 39-48): every declared field is dumped, the id under its `_id` alias,
credentials included. -/
def model_dump_database (u : AuthorizedUser) : JsonV :=
  JsonV.obj
    [ ("_id", JsonV.str u.id),
      ("username", JsonV.str u.username),
      ("created_at", JsonV.str u.created_at),
      ("fullname", optStrJson u.fullname),
      ("bio", optStrJson u.bio),
      ("password", JsonV.str u.password),
      ("token", JsonV.str u.token) ]

/-- Reads an optional string field back (inverse of `optStrJson`). -/
def jsonOptStr : JsonV → Option (Option String)
  | JsonV.null => some none
  | JsonV.str s => some (some s)
  | _ => none

/-- Reads a mandatory string field back. -/
def jsonStr : JsonV → Option String
  | JsonV.str s => some s
  | _ => none

/-- Pydantic validation `AuthorizedUser(**json.loads(data))` (cache.py line
61): reconstructs the record from its JSON dump, failing on malformed data. -/
def authorizedUserFromJson : JsonV → Option AuthorizedUser
  | JsonV.obj fields => do
      let lk := fun (k : String) => (fields.lookup k)
      let id ← (lk "_id").bind jsonStr
      let username ← (lk "username").bind jsonStr
      let created_at ← (lk "created_at").bind jsonStr
      let fullname ← (lk "fullname").bind jsonOptStr
      let bio ← (lk "bio").bind jsonOptStr
      let password ← (lk "password").bind jsonStr
      let token ← (lk "token").bind jsonStr
      pure { id := id, username := username, created_at := created_at,
             fullname := fullname, bio := bio, password := password, token := token }
  | _ => none

/-- One live Redis key: stored value plus absolute expiry time (`none` for
keys set without `ex`, which never expire). -/
structure RedisEntry where
  value : JsonV
  expireAt : Option Nat

/-- The Redis keyspace, as an association list from keys to entries. -/
abbrev RedisState := List (String × RedisEntry)

/-- Removes every binding of a key from an association list (overwriting
semantics of a keyed store). -/
def removeKey {α : Type} (l : List (String × α)) (k : String) : List (String × α) :=
  l.filter (fun kv => kv.1 ≠ k)

/-- Whether an entry is still live at absolute time `now` (keys set without
`ex` never expire). -/
def entryLive (e : RedisEntry) (now : Nat) : Bool :=
  match e.expireAt with
  | none => true
  | some t => decide (now < t)

/-- Redis GET at absolute time `now`: the entry for the key if present and
not expired, else nil. -/
def redisGet (st : RedisState) (key : String) (now : Nat) : Option JsonV :=
  match st.lookup key with
  | none => none
  | some e => if entryLive e now then some e.value else none

/-- Redis SET with optional relative expiry `ex` and the `xx` flag: with
`xx=true` the write only happens when a live value already exists for the
key. -/
def redisSet (st : RedisState) (key : String) (value : JsonV)
    (ex : Option Nat) (xx : Bool) (now : Nat) : RedisState :=
  if xx && (redisGet st key now).isNone then st
  else (key, { value := value, expireAt := ex.map (now + ·) }) :: removeKey st key

/-- Redis DEL. -/
def redisDelete (st : RedisState) (key : String) : RedisState :=
  removeKey st key

/-- Key scheme for users cached by token (`CacheManager._scheme_user_token`). -/
def scheme_user_token (token : String) : String := "user_token:" ++ token

/-- Key scheme for the user-id existence flag
(`CacheManager._scheme_user_id_integ`). -/
def scheme_user_id_integ (user_id : String) : String := "user_id_integ:" ++ user_id

/-- Key scheme for per-user session id lists
(`CacheManager._scheme_user_sessions`). -/
def scheme_user_sessions (user_id : String) : String := "user_sessions:" ++ user_id

/-- Cache read of a user by token (`CacheManager.get_user_by_token`, cache.py
lines 57-61). -/
def get_user_by_token (st : RedisState) (token : String) (now : Nat) : Option AuthorizedUser :=
  (redisGet st (scheme_user_token token) now).bind authorizedUserFromJson

/-- Cache write of a user under its token key (`CacheManager.set_user_by_token`,
cache.py lines 63-71): `self._redis.set(key, value, ex=300, xx=update)`. -/
def set_user_by_token (st : RedisState) (u : AuthorizedUser)
    (update : Bool) (now : Nat) : RedisState :=
  redisSet st (scheme_user_token u.token) (model_dump_database u) (some 300) update now

/-- Cache eviction of a user by token (`CacheManager.delete_user_by_token`). -/
def delete_user_by_token (st : RedisState) (token : String) : RedisState :=
  redisDelete st (scheme_user_token token)

/-- Tri-state existence check (`CacheManager.check_user_id_exists`, cache.py
lines 82-92): `none` when existence is unknown, else `bool(int(value))`. -/
def check_user_id_exists (st : RedisState) (user_id : String) (now : Nat) : Option Bool :=
  match redisGet st (scheme_user_id_integ user_id) now with
  | none => none
  | some (JsonV.num n) => some (decide (n ≠ 0))
  | some _ => none

/-- Existence flag write (`CacheManager.set_user_id_exists`, cache.py lines
94-97): `self._redis.set(key, int(exists), xx=update, ex=300)`. -/
def set_user_id_exists (st : RedisState) (user_id : String) (exists_flag : Bool)
    (update : Bool) (now : Nat) : RedisState :=
  redisSet st (scheme_user_id_integ user_id)
    (JsonV.num (if exists_flag then 1 else 0)) (some 300) update now

/-- JSON image of a session id list (`json.dumps(session_ids)`). -/
def sessionsJson (ids : List String) : JsonV := JsonV.arr (ids.map JsonV.str)

/-- Session id list read back from its JSON image. -/
def jsonSessions : JsonV → List String
  | JsonV.arr elems => elems.filterMap jsonStr
  | _ => []

/-- Per-user session id list (`CacheManager.get_user_sessions`, cache.py lines
104-110): empty when the key is absent. -/
def get_user_sessions (st : RedisState) (user_id : String) (now : Nat) : List String :=
  match redisGet st (scheme_user_sessions user_id) now with
  | none => []
  | some v => jsonSessions v

/-- Appends a session id to the user's list and writes it back
(`CacheManager.insert_user_session_id`, cache.py lines 112-116; the write has
no expiry and no conditional flag). -/
def insert_user_session_id (st : RedisState) (user_id session_id : String)
    (now : Nat) : RedisState :=
  let session_ids := get_user_sessions st user_id now
  redisSet st (scheme_user_sessions user_id)
    (sessionsJson (session_ids ++ [session_id])) none false now

/-- Removes a session id from the user's list
(`CacheManager.delete_user_session_id`, cache.py lines 118-131): when the id
is absent `list.remove` raises ValueError, no write happens and False is
returned; otherwise the first occurrence is removed, the list is written back
and True is returned. -/
def delete_user_session_id (st : RedisState) (user_id session_id : String)
    (now : Nat) : RedisState × Bool :=
  let session_ids := get_user_sessions st user_id now
  if session_id ∈ session_ids then
    (redisSet st (scheme_user_sessions user_id)
      (sessionsJson (session_ids.erase session_id)) none false now, true)
  else (st, false)

/-- Deletes the whole per-user session list
(`CacheManager.clear_user_session_ids`, cache.py lines 133-135). -/
def clear_user_session_ids (st : RedisState) (user_id : String) : RedisState :=
  redisDelete st (scheme_user_sessions user_id)

/-- In-process view of one registered WebSocket connection (`WSClient`): the
authenticated user's id and the session id assigned at registration. -/
structure WSConn where
  user_id : String
  session_id : String
deriving DecidableEq, Repr

/-- The in-process `ConnectionManager._connections` dict, mapping session ids
to connections. -/
abbrev ConnMap := List (String × WSConn)

/-- Registers a WebSocket connection (`ConnectionManager.register_connection`,
connections.py lines 51-58): inserts the freshly minted session id into the
user's cached session list and records the in-process mapping.  The created
subscription worker task is modelled separately (see `SessionState`). -/
def register_connection (st : RedisState) (cm : ConnMap)
    (user_id session_id : String) (now : Nat) : RedisState × ConnMap :=
  (insert_user_session_id st user_id session_id now,
   (session_id, { user_id := user_id, session_id := session_id }) :: cm)

/-- Unregisters a WebSocket connection (`ConnectionManager.delete_connection`,
connections.py lines 60-63): removes the cache-layer session entry and pops
the in-process mapping. -/
def delete_connection (st : RedisState) (cm : ConnMap)
    (conn : WSConn) (now : Nat) : RedisState × ConnMap :=
  ((delete_user_session_id st conn.user_id conn.session_id now).1,
   removeKey cm conn.session_id)

/-- The for-loop of `ConnectionManager.disconnect_user_connections`
(connections.py lines 69-72): for each session id, when a connection is found
in the in-process map its `WSClient.close` runs, which (websocket.py lines
77-93) deregisters the connection via `delete_connection`.  Returns the final
cache state, the final map and the list of session ids that were closed. -/
def disconnectLoop (st : RedisState) (cm : ConnMap) (now : Nat) :
    List String → RedisState × ConnMap × List String
  | [] => (st, cm, [])
  | sid :: rest =>
      match cm.lookup sid with
      | none => disconnectLoop st cm now rest
      | some conn =>
          let next := delete_connection st cm conn now
          let r := disconnectLoop next.1 next.2 now rest
          (r.1, r.2.1, sid :: r.2.2)

/-- Disconnects all of a user's connections
(`ConnectionManager.disconnect_user_connections`, connections.py lines
65-74): reads the cached session list, closes every locally known
connection, then clears the cached session list unconditionally. -/
def disconnect_user_connections (st : RedisState) (cm : ConnMap)
    (user_id : String) (now : Nat) : RedisState × ConnMap × List String :=
  let session_ids := get_user_sessions st user_id now
  let r := disconnectLoop st cm now session_ids
  (clear_user_session_ids r.1 user_id, r.2.1, r.2.2)

/-- A WebSocket operation code (`OperationCode`, codes.py lines 76-91). -/
structure OperationCode where
  code : Nat
  name : String
deriving DecidableEq, Repr

/-- Operation code HELLO (codes.py line 94). -/
def HELLO : OperationCode := { code := 0, name := "HELLO" }

/-- Operation code READY (codes.py line 95). -/
def READY : OperationCode := { code := 1, name := "READY" }

/-- Operation code EVENT (codes.py line 96). -/
def EVENT : OperationCode := { code := 2, name := "EVENT" }

/-- A packet sent to the client (`OperationCode.ws_packet`, codes.py lines
83-91): the fields `d` and `t` are omitted when MISSING. -/
structure WSPacket where
  op : Nat
  d : Option JsonV
  t : Option String

/-- Builds the wire packet for an operation code (`ws_packet`). -/
def ws_packet (op : OperationCode) (d : Option JsonV) (t : Option String) : WSPacket :=
  { op := op.code, d := d, t := t }

/-- A decoded message delivered by the pubsub bus to a channel handler:
the keys `channel` and `data` of the `event_data` dict, with `data` already
passed through `json.loads`. -/
structure EventData where
  channel : String
  data : JsonV

/-- Python `s.lstrip(chars)`: drops leading characters that are members of
the character set `chars`. -/
def pyLstrip (chars : List Char) (l : List Char) : List Char :=
  l.dropWhile (fun c => chars.contains c)

/-- Python `s.upper()` on ASCII strings. -/
def pyUpper (l : List Char) : List Char := l.map Char.toUpper

/-- Whether a character is not a colon; the first component of Python
`channel.split(":")` is the run of such characters. -/
def notColon (c : Char) : Bool := c ≠ ':'

/-- The per-connection pubsub message handler
(`ConnectionManager._event_handler_wrapper`, connections.py lines 76-87):
takes the channel name up to the first colon (`channel.split(":")` first
component), asserts the `event_` prefix, strips it with `str.lstrip` and
upper-cases the remainder, then sends an EVENT packet whose payload is the
decoded data and whose tag is the derived event name.  `none` models the
assertion failing. -/
def event_handler (ed : EventData) : Option WSPacket :=
  let event := String.mk (ed.channel.data.takeWhile notColon)
  if "event_".data.isPrefixOf event.data then
    some (ws_packet EVENT (some ed.data)
      (some (String.mk (pyUpper (pyLstrip "event_".data event.data)))))
  else none

/-- Payloads a ready session of `viewer` receives from a batch of publishes:
those whose channel the session subscribed
(`_subscribe_event_channels_worker` set), in publish order. -/
def deliveredTo (viewer : String) (friendIds : List String)
    (pubs : List Publish) : List JsonV :=
  (pubs.filter (fun p => p.channel ∈ subscribeChannels viewer friendIds)).map
    (fun p => p.message)

/-- Abstract packets for the handshake-ordering model: only the operation
code matters. -/
inductive WirePkt where
  | hello : WirePkt
  | ready : WirePkt
  | event : WirePkt
deriving DecidableEq, Repr

/-- State of one connection session together with its subscription worker
task and the bus (`WSClient.start` / `_send_initial_packets` /
`_subscribe_event_channels_worker`).

`mainPc` is the program counter of the main task in `WSClient.start` with
`_send_initial_packets` inlined:
0 = about to await `register_connection` (websocket.py line 98),
1 = about to await `self._ws.accept()` (line 99),
2 = about to send HELLO (line 69),
3 = blocked on `await self._ready.wait()` (line 70),
4 = about to send READY (line 71),
5 = about to start `_pubsub_listener_worker` (line 102),
6 = in the client receive loop (lines 104-108).

`workerPc` counts completed subscribe awaits of
`_subscribe_event_channels_worker`; the worker needs `workerTotal` of them
before it sets the readiness event (connections.py line 115).  `workerFailed`
records that a subscribe call raised, killing the worker task.  `pending`
counts bus messages published on subscribed channels and not yet pulled by
`_pubsub.get_message`.  `sent` is the chronological list of packets sent to
the client.  `closed` records that `WSClient.close` ran. -/
structure SessionState where
  mainPc : Nat
  workerPc : Nat
  workerTotal : Nat
  workerFailed : Bool
  readyFlag : Bool
  listenerStarted : Bool
  pending : Nat
  sent : List WirePkt
  closed : Bool
deriving DecidableEq, Repr

/-- Initial state of a fresh connection whose subscription set needs `n`
subscribe calls. -/
def initSession (n : Nat) : SessionState :=
  { mainPc := 0, workerPc := 0, workerTotal := n, workerFailed := false,
    readyFlag := false, listenerStarted := false, pending := 0,
    sent := [], closed := false }

/-- One interleaving step of the session, its subscription worker and the
publishers.  Each constructor mirrors one suspension point of the source. -/
inductive SessionStep : SessionState → SessionState → Prop where
  | register (s : SessionState) (h : s.mainPc = 0) :
      SessionStep s { s with mainPc := 1 }
  | accept (s : SessionState) (h : s.mainPc = 1) :
      SessionStep s { s with mainPc := 2 }
  | sendHello (s : SessionState) (h : s.mainPc = 2) :
      SessionStep s { s with mainPc := 3, sent := s.sent ++ [WirePkt.hello] }
  | waitReady (s : SessionState) (h : s.mainPc = 3) (hr : s.readyFlag = true) :
      SessionStep s { s with mainPc := 4 }
  | sendReady (s : SessionState) (h : s.mainPc = 4) :
      SessionStep s { s with mainPc := 5, sent := s.sent ++ [WirePkt.ready] }
  | startListener (s : SessionState) (h : s.mainPc = 5) :
      SessionStep s { s with mainPc := 6, listenerStarted := true }
  | subscribe (s : SessionState) (h : s.mainPc ≥ 1) (hf : s.workerFailed = false)
      (hn : s.workerPc < s.workerTotal) :
      SessionStep s { s with workerPc := s.workerPc + 1 }
  | subscribeFail (s : SessionState) (h : s.mainPc ≥ 1) (hf : s.workerFailed = false)
      (hn : s.workerPc < s.workerTotal) :
      SessionStep s { s with workerFailed := true }
  | setReady (s : SessionState) (h : s.mainPc ≥ 1) (hf : s.workerFailed = false)
      (hn : s.workerPc = s.workerTotal) :
      SessionStep s { s with readyFlag := true }
  | publish (s : SessionState) :
      SessionStep s { s with pending := s.pending + 1 }
  | deliver (s : SessionState) (h : s.listenerStarted = true) (hp : 0 < s.pending) :
      SessionStep s { s with pending := s.pending - 1, sent := s.sent ++ [WirePkt.event] }
  | clientDisconnect (s : SessionState) (h : s.mainPc = 6) :
      SessionStep s { s with closed := true }

/-- States reachable from a fresh connection with `n` required subscribe
calls, under every interleaving. -/
inductive SessionReachable (n : Nat) : SessionState → Prop where
  | init : SessionReachable n (initSession n)
  | step {s t : SessionState} (hs : SessionReachable n s) (hstep : SessionStep s t) :
      SessionReachable n t

/-- Checks that, scanning chronologically with `seen` recording whether a
READY packet occurred already, no EVENT packet precedes the first READY. -/
def traceOkFrom (seen : Bool) : List WirePkt → Bool
  | [] => true
  | WirePkt.hello :: rest => traceOkFrom seen rest
  | WirePkt.ready :: rest => traceOkFrom true rest
  | WirePkt.event :: rest => seen && traceOkFrom seen rest

/-- No EVENT packet precedes the first READY packet in the trace. -/
def traceOk (tr : List WirePkt) : Bool := traceOkFrom false tr

/-- Whether the trace contains a READY packet. -/
def hasReady : List WirePkt → Bool
  | [] => false
  | WirePkt.ready :: _ => true
  | _ :: rest => hasReady rest

/-- Inductive invariant of the session machine: the trace is well ordered,
the readiness flag is only raised once all subscribes finished without
failure, READY is only sent after the flag was observed, and the event
relay only runs once READY is on the wire. -/
def SessionInv (s : SessionState) : Prop :=
  traceOk s.sent = true ∧
  (s.readyFlag = true → s.workerPc = s.workerTotal ∧ s.workerFailed = false) ∧
  (4 ≤ s.mainPc → s.readyFlag = true) ∧
  (hasReady s.sent = true → s.readyFlag = true) ∧
  (5 ≤ s.mainPc → hasReady s.sent = true) ∧
  (s.listenerStarted = true → hasReady s.sent = true) ∧
  (s.closed = true → s.mainPc = 6)

/-- The channel set required for a user per the spec's words (spec section
4.3 with the channel name schemes of section 6): not the user's own
user_update/user_delete, but each friend's; plus the user's own friend_create,
friend_delete, friend_request_receive; plus the user's own direct-message
create/update/delete channels (destination type DIRECT = 0, destination id =
the user id). -/
def specChannelSet (user_id : String) (friendIds : List String) (c : String) : Prop :=
  (∃ f ∈ friendIds, c = "event_user_update:" ++ f ∨ c = "event_user_delete:" ++ f) ∨
  c = "event_friend_create:" ++ user_id ∨
  c = "event_friend_delete:" ++ user_id ∨
  c = "event_friend_request_receive:" ++ user_id ∨
  c = "event_message_create:0," ++ user_id ∨
  c = "event_message_update:0," ++ user_id ∨
  c = "event_message_delete:0," ++ user_id

/-- Well-formedness of the in-process connection map: every binding keys a
connection by its own session id, as `register_connection` maintains. -/
abbrev ConnMapWF (cm : ConnMap) : Prop :=
  ∀ kv ∈ cm, (kv : String × WSConn).2.session_id = kv.1

/-- Session state at the end of a happy-path interleaving with one subscribe
call: HELLO, READY, then one delivered EVENT. -/
def demoReadyState : SessionState :=
  { mainPc := 6, workerPc := 1, workerTotal := 1, workerFailed := false,
    readyFlag := true, listenerStarted := true, pending := 0,
    sent := [WirePkt.hello, WirePkt.ready, WirePkt.event], closed := false }

/-- Session state right after the subscription worker raised on its first
subscribe call: HELLO was sent, the main task is blocked awaiting readiness. -/
def demoFailedState : SessionState :=
  { mainPc := 3, workerPc := 0, workerTotal := 1, workerFailed := true,
    readyFlag := false, listenerStarted := false, pending := 0,
    sent := [WirePkt.hello], closed := false }

/-- A sample authorized user for concrete evaluations. -/
def demoUser : AuthorizedUser :=
  { id := "11111111-1111-1111-1111-111111111111", username := "alice",
    created_at := "2025-01-01T00:00:00+00:00", fullname := none, bio := none,
    password := "password123", token := "tok" }

/-- A sample cache state holding two sessions for user "u". -/
def demoSessionsState : RedisState :=
  [(scheme_user_sessions "u", { value := sessionsJson ["s1", "s2"], expireAt := none })]

/-- A sample in-process connection map holding session "s1" of user "u". -/
def demoConnMap : ConnMap :=
  [("s1", { user_id := "u", session_id := "s1" })]

section Lemmas

variable {α : Type}

/-- Lookup at the key of a freshly consed binding. -/
lemma lookup_cons_self (k : String) (v : α) (t : List (String × α)) :
    ((k, v) :: t).lookup k = some v := by
  simp [List.lookup]

/-- Lookup at another key skips a consed binding. -/
lemma lookup_cons_ne (a : String × α) (t : List (String × α)) (k2 : String)
    (h : k2 ≠ a.1) : (a :: t).lookup k2 = t.lookup k2 := by
  obtain ⟨k1, v1⟩ := a
  rw [List.lookup, beq_eq_false_iff_ne.mpr h]

/-- Removing a key makes lookups of that key fail. -/
lemma lookup_removeKey_self (l : List (String × α)) (k : String) :
    (removeKey l k).lookup k = none := by
  unfold removeKey
  induction l with
  | nil => rfl
  | cons a t ih =>
      rw [List.filter_cons]
      by_cases h : a.1 = k
      · simpa [h] using ih
      · rw [if_pos (by simpa using h), lookup_cons_ne a _ k (Ne.symm h)]
        exact ih

/-- Removing one key leaves lookups of other keys unchanged. -/
lemma lookup_removeKey_ne (l : List (String × α)) (k k2 : String) (h : k2 ≠ k) :
    (removeKey l k).lookup k2 = l.lookup k2 := by
  unfold removeKey
  induction l with
  | nil => rfl
  | cons a t ih =>
      rw [List.filter_cons]
      by_cases ha : a.1 = k
      · have hne : k2 ≠ a.1 := by rw [ha]; exact h
        rw [if_neg (by simpa using ha), lookup_cons_ne a t k2 hne]
        exact ih
      · by_cases hk2 : k2 = a.1
        · obtain ⟨k1, v1⟩ := a
          simp only at hk2
          rw [if_pos (by simpa using ha), hk2, lookup_cons_self, lookup_cons_self]
        · rw [if_pos (by simpa using ha), lookup_cons_ne a _ k2 hk2,
            lookup_cons_ne a t k2 hk2]
          exact ih

/-- Reading back the key just written with no expiry. -/
lemma redisGet_set_self_noex (st : RedisState) (k : String) (v : JsonV)
    (now now2 : Nat) :
    redisGet (redisSet st k v none false now) k now2 = some v := by
  simp [redisSet, redisGet, List.lookup, entryLive]

/-- Reading back the key just written with expiry `ex`: the value while the
entry is live, nil from the expiry time on. -/
lemma redisGet_set_self_ex (st : RedisState) (k : String) (v : JsonV)
    (ex now now2 : Nat) :
    redisGet (redisSet st k v (some ex) false now) k now2 =
      if now2 < now + ex then some v else none := by
  simp [redisSet, redisGet, List.lookup, entryLive]

/-- An entry dead at time `now` stays dead at any later time. -/
lemma entryLive_mono (e : RedisEntry) (now now2 : Nat)
    (h : entryLive e now = false) (hle : now ≤ now2) :
    entryLive e now2 = false := by
  unfold entryLive at h ⊢
  cases he : e.expireAt with
  | none => rw [he] at h; exact absurd h (by simp)
  | some t =>
      rw [he] at h
      simp only [decide_eq_false_iff_not] at h ⊢
      omega

/-- A key that reads nil keeps reading nil at any later time. -/
lemma redisGet_none_mono (st : RedisState) (k : String) (now now2 : Nat)
    (h : redisGet st k now = none) (hle : now ≤ now2) :
    redisGet st k now2 = none := by
  unfold redisGet at h ⊢
  cases hl : st.lookup k with
  | none => rfl
  | some e =>
      rw [hl] at h
      dsimp only at h ⊢
      by_cases hlive : entryLive e now
      · rw [if_pos hlive] at h; exact absurd h (by simp)
      · have hdead : entryLive e now = false := by simpa using hlive
        rw [if_neg (by simp [entryLive_mono e now now2 hdead hle])]

/-- The conditional write is a no-op when the key reads nil. -/
lemma redisSet_xx_noop (st : RedisState) (k : String) (v : JsonV)
    (ex : Option Nat) (now : Nat) (h : redisGet st k now = none) :
    redisSet st k v ex true now = st := by
  simp [redisSet, h]

/-- Session lists survive the JSON round trip. -/
lemma jsonSessions_sessionsJson (ids : List String) :
    jsonSessions (sessionsJson ids) = ids := by
  simp [jsonSessions, sessionsJson, List.filterMap_map, jsonStr]
  exact List.filterMap_some ids

/-- An authorized user record survives the cache serialization round trip,
credential fields included. -/
lemma authorizedUserFromJson_dump (u : AuthorizedUser) :
    authorizedUserFromJson (model_dump_database u) = some u := by
  cases u with
  | mk id username created_at fullname bio password token =>
      cases fullname <;> cases bio <;>
        simp [authorizedUserFromJson, model_dump_database, optStrJson,
          jsonOptStr, jsonStr, List.lookup]

/-- takeWhile over an append stops inside the left part when the left part
contains an element refuting the predicate. -/
lemma takeWhile_append_stop (p : Char → Bool) (l1 l2 : List Char)
    (h : ∃ c ∈ l1, p c = false) :
    (l1 ++ l2).takeWhile p = l1.takeWhile p := by
  induction l1 with
  | nil =>
      obtain ⟨c, hc, _⟩ := h
      exact absurd hc (by simp)
  | cons a t ih =>
      by_cases hp : p a
      · obtain ⟨c, hc, hcp⟩ := h
        rcases List.mem_cons.mp hc with hca | hct
        · subst hca; rw [hp] at hcp; exact absurd hcp (by simp)
        · rw [List.cons_append, List.takeWhile_cons, List.takeWhile_cons,
            if_pos hp, if_pos hp, ih ⟨c, hct, hcp⟩]
      · have hpf : p a = false := by simpa using hp
        rw [List.cons_append, List.takeWhile_cons, List.takeWhile_cons,
          if_neg (by simp [hpf]), if_neg (by simp [hpf])]

/-- Two appends differ when their left parts differ at a common index. -/
lemma append_ne_of_ne_at (p q x y : List Char) (i : Nat) (a b : Char)
    (hp : p[i]? = some a) (hq : q[i]? = some b) (hab : a ≠ b) :
    p ++ x ≠ q ++ y := by
  intro heq
  have hip : i < p.length := by
    by_contra hc
    rw [List.getElem?_eq_none (by omega)] at hp
    exact absurd hp (by simp)
  have hiq : i < q.length := by
    by_contra hc
    rw [List.getElem?_eq_none (by omega)] at hq
    exact absurd hq (by simp)
  have h1 : (p ++ x)[i]? = some a := by rw [List.getElem?_append_left hip]; exact hp
  have h2 : (q ++ y)[i]? = some b := by rw [List.getElem?_append_left hiq]; exact hq
  rw [heq, h2] at h1
  exact hab (Option.some.inj h1).symm

/-- String version of `append_ne_of_ne_at`. -/
lemma str_append_ne (p q : String) (i : Nat) (a b : Char)
    (hp : p.data[i]? = some a) (hq : q.data[i]? = some b) (hab : a ≠ b)
    (x y : String) : p ++ x ≠ q ++ y := by
  intro heq
  have hd : (p ++ x).data = (q ++ y).data := by rw [heq]
  rw [String.data_append, String.data_append] at hd
  exact append_ne_of_ne_at p.data q.data x.data y.data i a b hp hq hab hd

/-- Appending the same left part preserves and reflects equality. -/
lemma str_append_left_inj (p x y : String) : p ++ x = p ++ y ↔ x = y := by
  constructor
  · intro h
    have hd : (p ++ x).data = (p ++ y).data := by rw [h]
    rw [String.data_append, String.data_append] at hd
    have hxy := List.append_cancel_left hd
    cases x; cases y
    simp only at hxy
    rw [hxy]
  · intro h; rw [h]

/-- Normal form of the user_update channel name. -/
lemma channel_user_update_eq (u : String) :
    channel_user_update u = "event_user_update:" ++ u := rfl

/-- Normal form of the user_delete channel name. -/
lemma channel_user_delete_eq (u : String) :
    channel_user_delete u = "event_user_delete:" ++ u := rfl

/-- Normal form of the friend_create channel name. -/
lemma channel_friend_create_eq (u : String) :
    channel_friend_create u = "event_friend_create:" ++ u := rfl

/-- Normal form of the friend_delete channel name. -/
lemma channel_friend_delete_eq (u : String) :
    channel_friend_delete u = "event_friend_delete:" ++ u := rfl

/-- Normal form of the friend_request_receive channel name. -/
lemma channel_friend_request_receive_eq (u : String) :
    channel_friend_request_receive u = "event_friend_request_receive:" ++ u := rfl

/-- Normal form of the message_create channel name. -/
lemma channel_message_create_eq (dt : MessageDestinationType) (u : String) :
    channel_message_create dt u = "event_message_create:" ++ (dt.render ++ ("," ++ u)) := by
  cases dt <;> rfl

/-- Normal form of the message_update channel name. -/
lemma channel_message_update_eq (dt : MessageDestinationType) (u : String) :
    channel_message_update dt u = "event_message_update:" ++ (dt.render ++ ("," ++ u)) := by
  cases dt <;> rfl

/-- Normal form of the message_delete channel name. -/
lemma channel_message_delete_eq (dt : MessageDestinationType) (u : String) :
    channel_message_delete dt u = "event_message_delete:" ++ (dt.render ++ ("," ++ u)) := by
  cases dt <;> rfl

/-- Direct-message create channel in spec normal form. -/
lemma channel_message_create_direct (u : String) :
    channel_message_create MessageDestinationType.DIRECT u =
      "event_message_create:0," ++ u := rfl

/-- Direct-message update channel in spec normal form. -/
lemma channel_message_update_direct (u : String) :
    channel_message_update MessageDestinationType.DIRECT u =
      "event_message_update:0," ++ u := rfl

/-- Direct-message delete channel in spec normal form. -/
lemma channel_message_delete_direct (u : String) :
    channel_message_delete MessageDestinationType.DIRECT u =
      "event_message_delete:0," ++ u := rfl

/-- The subscribed channel set, characterized as membership in the spec's
described set. -/
lemma mem_subscribeChannels_iff (u : String) (F : List String) (c : String) :
    c ∈ subscribeChannels u F ↔ specChannelSet u F c := by
  simp only [subscribeChannels, specChannelSet, List.mem_append,
    List.mem_flatMap, List.mem_cons, List.mem_singleton,
    List.not_mem_nil, or_false, channel_user_update_eq, channel_user_delete_eq,
    channel_friend_create_eq, channel_friend_delete_eq,
    channel_friend_request_receive_eq, channel_message_create_direct,
    channel_message_update_direct, channel_message_delete_direct]

/-- A friend_create channel for another user is never in a user's
subscription set. -/
lemma friend_create_not_subscribed (A B : String) (F : List String) (h : B ≠ A) :
    channel_friend_create B ∉ subscribeChannels A F := by
  rw [mem_subscribeChannels_iff, channel_friend_create_eq]
  rintro (⟨f, _, hf | hf⟩ | hc | hc | hc | hc | hc | hc)
  · exact str_append_ne "event_friend_create:" "event_user_update:" 6 'f' 'u'
      (by decide) (by decide) (by decide) B f hf
  · exact str_append_ne "event_friend_create:" "event_user_delete:" 6 'f' 'u'
      (by decide) (by decide) (by decide) B f hf
  · exact h ((str_append_left_inj "event_friend_create:" B A).mp hc)
  · exact str_append_ne "event_friend_create:" "event_friend_delete:" 13 'c' 'd'
      (by decide) (by decide) (by decide) B A hc
  · exact str_append_ne "event_friend_create:" "event_friend_request_receive:" 13 'c' 'r'
      (by decide) (by decide) (by decide) B A hc
  · exact str_append_ne "event_friend_create:" "event_message_create:0," 6 'f' 'm'
      (by decide) (by decide) (by decide) B A hc
  · exact str_append_ne "event_friend_create:" "event_message_update:0," 6 'f' 'm'
      (by decide) (by decide) (by decide) B A hc
  · exact str_append_ne "event_friend_create:" "event_message_delete:0," 6 'f' 'm'
      (by decide) (by decide) (by decide) B A hc

/-- A user's own user_update channel is never in the subscription set when
the user is not in the friend list. -/
lemma own_user_update_not_subscribed (u : String) (F : List String) (hu : u ∉ F) :
    channel_user_update u ∉ subscribeChannels u F := by
  rw [mem_subscribeChannels_iff, channel_user_update_eq]
  rintro (⟨f, hfF, hf | hf⟩ | hc | hc | hc | hc | hc | hc)
  · exact hu (((str_append_left_inj "event_user_update:" u f).mp hf) ▸ hfF)
  · exact str_append_ne "event_user_update:" "event_user_delete:" 11 'u' 'd'
      (by decide) (by decide) (by decide) u f hf
  · exact str_append_ne "event_user_update:" "event_friend_create:" 6 'u' 'f'
      (by decide) (by decide) (by decide) u u hc
  · exact str_append_ne "event_user_update:" "event_friend_delete:" 6 'u' 'f'
      (by decide) (by decide) (by decide) u u hc
  · exact str_append_ne "event_user_update:" "event_friend_request_receive:" 6 'u' 'f'
      (by decide) (by decide) (by decide) u u hc
  · exact str_append_ne "event_user_update:" "event_message_create:0," 6 'u' 'm'
      (by decide) (by decide) (by decide) u u hc
  · exact str_append_ne "event_user_update:" "event_message_update:0," 6 'u' 'm'
      (by decide) (by decide) (by decide) u u hc
  · exact str_append_ne "event_user_update:" "event_message_delete:0," 6 'u' 'm'
      (by decide) (by decide) (by decide) u u hc

/-- A user's own user_delete channel is never in the subscription set when
the user is not in the friend list. -/
lemma own_user_delete_not_subscribed (u : String) (F : List String) (hu : u ∉ F) :
    channel_user_delete u ∉ subscribeChannels u F := by
  rw [mem_subscribeChannels_iff, channel_user_delete_eq]
  rintro (⟨f, hfF, hf | hf⟩ | hc | hc | hc | hc | hc | hc)
  · exact str_append_ne "event_user_delete:" "event_user_update:" 11 'd' 'u'
      (by decide) (by decide) (by decide) u f hf
  · exact hu (((str_append_left_inj "event_user_delete:" u f).mp hf) ▸ hfF)
  · exact str_append_ne "event_user_delete:" "event_friend_create:" 6 'u' 'f'
      (by decide) (by decide) (by decide) u u hc
  · exact str_append_ne "event_user_delete:" "event_friend_delete:" 6 'u' 'f'
      (by decide) (by decide) (by decide) u u hc
  · exact str_append_ne "event_user_delete:" "event_friend_request_receive:" 6 'u' 'f'
      (by decide) (by decide) (by decide) u u hc
  · exact str_append_ne "event_user_delete:" "event_message_create:0," 6 'u' 'm'
      (by decide) (by decide) (by decide) u u hc
  · exact str_append_ne "event_user_delete:" "event_message_update:0," 6 'u' 'm'
      (by decide) (by decide) (by decide) u u hc
  · exact str_append_ne "event_user_delete:" "event_message_delete:0," 6 'u' 'm'
      (by decide) (by decide) (by decide) u u hc

/-- A successful lookup locates a binding of the list. -/
lemma mem_of_lookup_eq_some {l : List (String × α)} {k : String} {v : α}
    (h : l.lookup k = some v) : (k, v) ∈ l := by
  induction l with
  | nil => cases h
  | cons a t ih =>
      obtain ⟨k1, v1⟩ := a
      by_cases hk : k = k1
      · subst hk
        rw [lookup_cons_self] at h
        cases h
        exact List.mem_cons_self _ _
      · rw [lookup_cons_ne (k1, v1) t k (by simpa using hk)] at h
        exact List.mem_cons_of_mem _ (ih h)

/-- Connection-map well-formedness survives removal of a key. -/
lemma connMapWF_removeKey (cm : ConnMap) (k : String)
    (h : ConnMapWF cm) : ConnMapWF (removeKey cm k) := by
  intro kv hm
  rw [removeKey, List.mem_filter] at hm
  exact h kv hm.1

/-- Reading the session list just written. -/
lemma get_user_sessions_write (st : RedisState) (uid : String)
    (l : List String) (now now2 : Nat) :
    get_user_sessions
      (redisSet st (scheme_user_sessions uid) (sessionsJson l) none false now)
      uid now2 = l := by
  simp [get_user_sessions, redisGet_set_self_noex, jsonSessions_sessionsJson]

/-- Inserting a session id appends it to the cached list. -/
lemma get_user_sessions_insert (st : RedisState) (uid sid : String)
    (now now2 : Nat) :
    get_user_sessions (insert_user_session_id st uid sid now) uid now2 =
      get_user_sessions st uid now ++ [sid] := by
  simp [insert_user_session_id, get_user_sessions_write]

/-- Clearing the session list empties it for good. -/
lemma get_user_sessions_clear (st : RedisState) (uid : String) (now2 : Nat) :
    get_user_sessions (clear_user_session_ids st uid) uid now2 = [] := by
  simp [clear_user_session_ids, get_user_sessions, redisDelete, redisGet,
    lookup_removeKey_self]

/-- Erasing a freshly appended element restores the list. -/
lemma erase_append_singleton (l : List String) (a : String) (h : a ∉ l) :
    (l ++ [a]).erase a = l := by
  rw [List.erase_append_right _ h]
  simp

/-- Every session id of the iterated list that is found in the in-process
map ends up in the closed list of `disconnectLoop`. -/
lemma disconnectLoop_closes (sids : List String) (st : RedisState)
    (cm : ConnMap) (now : Nat) (hwf : ConnMapWF cm) :
    ∀ sid ∈ sids, (cm.lookup sid).isSome = true →
      sid ∈ (disconnectLoop st cm now sids).2.2 := by
  induction sids generalizing st cm with
  | nil => intro sid h; cases h
  | cons a rest ih =>
      intro sid hmem hsome
      rcases List.mem_cons.mp hmem with heq | hrest
      · subst heq
        cases hl : cm.lookup sid with
        | none => rw [hl] at hsome; cases hsome
        | some conn =>
            simp only [disconnectLoop, hl]
            exact List.mem_cons_self _ _
      · cases hl : cm.lookup a with
        | none =>
            simp only [disconnectLoop, hl]
            exact ih st cm hwf sid hrest hsome
        | some conn =>
            have hconn : conn.session_id = a :=
              hwf (a, conn) (mem_of_lookup_eq_some hl)
            simp only [disconnectLoop, hl]
            by_cases hsa : sid = a
            · subst hsa
              exact List.mem_cons_self _ _
            · refine List.mem_cons_of_mem _ ?_
              simp only [delete_connection]
              refine ih _ _ (connMapWF_removeKey cm conn.session_id hwf) sid hrest ?_
              rw [hconn, lookup_removeKey_ne cm a sid hsa]
              exact hsome

/-- hasReady distributes over append. -/
lemma hasReady_append (l1 l2 : List WirePkt) :
    hasReady (l1 ++ l2) = (hasReady l1 || hasReady l2) := by
  induction l1 with
  | nil => rfl
  | cons a t ih => cases a <;> simp [hasReady, ih]

/-- The trace check distributes over append, threading the seen-READY flag. -/
lemma traceOkFrom_append (b : Bool) (l1 l2 : List WirePkt) :
    traceOkFrom b (l1 ++ l2) =
      (traceOkFrom b l1 && traceOkFrom (b || hasReady l1) l2) := by
  induction l1 generalizing b with
  | nil => simp [traceOkFrom, hasReady]
  | cons a t ih =>
      cases a <;> simp [traceOkFrom, hasReady, ih, Bool.and_assoc]

/-- Appending HELLO preserves the trace check. -/
lemma traceOk_snoc_hello (tr : List WirePkt) :
    traceOk (tr ++ [WirePkt.hello]) = traceOk tr := by
  simp [traceOk, traceOkFrom_append, traceOkFrom]

/-- Appending READY preserves the trace check. -/
lemma traceOk_snoc_ready (tr : List WirePkt) :
    traceOk (tr ++ [WirePkt.ready]) = traceOk tr := by
  simp [traceOk, traceOkFrom_append, traceOkFrom]

/-- Appending EVENT preserves the trace check when READY is already on the
wire. -/
lemma traceOk_snoc_event (tr : List WirePkt) (h : hasReady tr = true) :
    traceOk (tr ++ [WirePkt.event]) = traceOk tr := by
  simp [traceOk, traceOkFrom_append, traceOkFrom, h]

/-- hasReady decides membership of the READY packet. -/
lemma hasReady_iff (tr : List WirePkt) :
    hasReady tr = true ↔ WirePkt.ready ∈ tr := by
  induction tr with
  | nil => simp [hasReady]
  | cons a t ih => cases a <;> simp [hasReady, ih]

/-- The invariant holds initially. -/
lemma sessionInv_init (n : Nat) : SessionInv (initSession n) := by
  refine ⟨rfl, ?_, ?_, ?_, ?_, ?_, ?_⟩ <;> intro hc <;>
    simp [initSession, hasReady] at hc

/-- The invariant is preserved by every step. -/
lemma sessionInv_step {s t : SessionState} (hinv : SessionInv s)
    (h : SessionStep s t) : SessionInv t := by
  obtain ⟨h1, h2, h3, h4, h5, h6, h7⟩ := hinv
  cases h with
  | register hm =>
      refine ⟨h1, h2, ?_, h4, ?_, h6, ?_⟩
      · intro hc; simp at hc
      · intro hc; simp at hc
      · intro hc; have := h7 hc; simp; omega
  | accept hm =>
      refine ⟨h1, h2, ?_, h4, ?_, h6, ?_⟩
      · intro hc; simp at hc
      · intro hc; simp at hc
      · intro hc; have := h7 hc; simp; omega
  | sendHello hm =>
      refine ⟨?_, h2, ?_, ?_, ?_, ?_, ?_⟩
      · simpa [traceOk_snoc_hello] using h1
      · intro hc; simp at hc
      · intro hc
        simp only [hasReady_append] at hc
        simp [hasReady] at hc
        exact h4 hc
      · intro hc; simp at hc
      · intro hc
        simp only [hasReady_append, hasReady]
        simp [h6 hc]
      · intro hc; have := h7 hc; simp; omega
  | waitReady hm hr =>
      refine ⟨h1, h2, fun hc => hr, h4, ?_, h6, ?_⟩
      · intro hc; simp at hc
      · intro hc; have := h7 hc; simp; omega
  | sendReady hm =>
      have hrf := h3 (by omega)
      refine ⟨?_, h2, fun hc => hrf, fun hc => hrf, ?_, ?_, ?_⟩
      · simpa [traceOk_snoc_ready] using h1
      · intro hc
        simp [hasReady_append, hasReady]
      · intro hc
        simp [hasReady_append, hasReady]
      · intro hc; have := h7 hc; simp; omega
  | startListener hm =>
      have hhr := h5 (by omega)
      refine ⟨h1, h2, ?_, h4, fun hc => hhr, fun hc => hhr, ?_⟩
      · intro hc; exact h3 (by omega)
      · intro hc; simp
  | subscribe hm hf hn =>
      refine ⟨h1, ?_, h3, h4, h5, h6, h7⟩
      intro hc
      have := h2 hc
      simp
      omega
  | subscribeFail hm hf hn =>
      refine ⟨h1, ?_, h3, h4, h5, h6, h7⟩
      intro hc
      have := h2 hc
      simp
      omega
  | setReady hm hf hn =>
      exact ⟨h1, fun hc => ⟨hn, hf⟩, fun hc => rfl, fun hc => rfl, h5, h6, h7⟩
  | publish =>
      exact ⟨h1, h2, h3, h4, h5, h6, h7⟩
  | deliver hl hp =>
      refine ⟨?_, h2, h3, ?_, ?_, ?_, ?_⟩
      · simpa [traceOk_snoc_event _ (h6 hl)] using h1
      · intro hc
        simp only [hasReady_append] at hc
        simp [hasReady] at hc
        exact h4 hc
      · intro hc
        simp only [hasReady_append, hasReady]
        simp [h5 hc]
      · intro hc
        simp only [hasReady_append, hasReady]
        simp [h6 hc]
      · exact h7
  | clientDisconnect hm =>
      exact ⟨h1, h2, h3, h4, h5, h6, fun hc => hm⟩

/-- The invariant holds in every reachable state. -/
lemma sessionInv_reachable {n : Nat} {s : SessionState}
    (h : SessionReachable n s) : SessionInv s := by
  induction h with
  | init => exact sessionInv_init n
  | step hs hstep ih => exact sessionInv_step ih hstep

end Lemmas

/-- C3: for every user with friend list F (the user not being their own
friend), the channel set subscribed at connection setup is exactly the
spec's set — each friend's user_update/user_delete channels plus the user's
own friend_create, friend_delete, friend_request_receive and direct-message
message channels — and the user's own user_update/user_delete channels are
not subscribed. -/
theorem claim_C3_channel_set (u : String) (F : List String) (hu : u ∉ F) :
    (∀ c, c ∈ subscribeChannels u F ↔ specChannelSet u F c) ∧
    channel_user_update u ∉ subscribeChannels u F ∧
    channel_user_delete u ∉ subscribeChannels u F :=
  ⟨fun c => mem_subscribeChannels_iff u F c,
   own_user_update_not_subscribed u F hu,
   own_user_delete_not_subscribed u F hu⟩

/-- Witness for C3 at user "a" with friend list ["b"]. -/
theorem claim_C3_channel_set_witness :
    ("a" ∉ (["b"] : List String)) ∧
    channel_user_update "a" ∉ subscribeChannels "a" ["b"] :=
  ⟨by decide, (claim_C3_channel_set "a" ["b"] (by decide)).2.1⟩

/-- C4: `dispatch_friend_create A B` publishes exactly two events — one on
A's friend_create channel with payload `{user_id: B}` and one on B's with
payload `{user_id: A}` — and a ready session of each endpoint receives
exactly one of them, the one carrying the other party's id. -/
theorem claim_C4_friend_create_fanout (A B : String) (fsA fsB : List String)
    (h : A ≠ B) :
    dispatch_friend_create A B =
      [ { channel := channel_friend_create A,
          message := JsonV.obj [("user_id", JsonV.str B)] },
        { channel := channel_friend_create B,
          message := JsonV.obj [("user_id", JsonV.str A)] } ] ∧
    deliveredTo A fsA (dispatch_friend_create A B) =
      [JsonV.obj [("user_id", JsonV.str B)]] ∧
    deliveredTo B fsB (dispatch_friend_create A B) =
      [JsonV.obj [("user_id", JsonV.str A)]] := by
  refine ⟨rfl, ?_, ?_⟩
  · have h1 : channel_friend_create A ∈ subscribeChannels A fsA := by
      simp [subscribeChannels]
    have h2 : channel_friend_create B ∉ subscribeChannels A fsA :=
      friend_create_not_subscribed A B fsA (Ne.symm h)
    simp [deliveredTo, dispatch_friend_create, List.filter_cons, h1, h2]
  · have h1 : channel_friend_create B ∈ subscribeChannels B fsB := by
      simp [subscribeChannels]
    have h2 : channel_friend_create A ∉ subscribeChannels B fsB :=
      friend_create_not_subscribed B A fsB h
    simp [deliveredTo, dispatch_friend_create, List.filter_cons, h1, h2]

/-- Witness for C4 at users "a" and "b" with empty friend lists. -/
theorem claim_C4_friend_create_fanout_witness :
    ("a" : String) ≠ "b" ∧
    deliveredTo "a" [] (dispatch_friend_create "a" "b") =
      [JsonV.obj [("user_id", JsonV.str "b")]] :=
  ⟨by decide, (claim_C4_friend_create_fanout "a" "b" [] [] (by decide)).2.1⟩

/-- C5: `set_user_by_token` writes the user under its token key with a fixed
TTL of 300 seconds; with the conditional flag set and no live value for the
key, the write is a no-op and a subsequent lookup returns absent.  The same
TTL and conditional semantics hold for `set_user_id_exists`. -/
theorem claim_C5_store_ttl_conditional (st : RedisState) (u : AuthorizedUser)
    (uid : String) (b : Bool) (now now2 : Nat)
    (h1 : redisGet st (scheme_user_token u.token) now = none)
    (h2 : redisGet st (scheme_user_id_integ uid) now = none)
    (hle : now ≤ now2) :
    (∀ now3, get_user_by_token (set_user_by_token st u false now) u.token now3 =
      if now3 < now + 300 then some u else none) ∧
    set_user_by_token st u true now = st ∧
    get_user_by_token (set_user_by_token st u true now) u.token now2 = none ∧
    (∀ now3, check_user_id_exists (set_user_id_exists st uid b false now) uid now3 =
      if now3 < now + 300 then some b else none) ∧
    set_user_id_exists st uid b true now = st ∧
    check_user_id_exists (set_user_id_exists st uid b true now) uid now2 = none := by
  have hnoop1 : set_user_by_token st u true now = st :=
    redisSet_xx_noop st _ _ _ now h1
  have hnoop2 : set_user_id_exists st uid b true now = st :=
    redisSet_xx_noop st _ _ _ now h2
  refine ⟨?_, hnoop1, ?_, ?_, hnoop2, ?_⟩
  · intro now3
    unfold get_user_by_token set_user_by_token
    rw [redisGet_set_self_ex]
    by_cases h3 : now3 < now + 300
    · rw [if_pos h3, if_pos h3]
      simp [authorizedUserFromJson_dump]
    · rw [if_neg h3, if_neg h3]
      rfl
  · rw [hnoop1]
    unfold get_user_by_token
    rw [redisGet_none_mono st _ now now2 h1 hle]
    rfl
  · intro now3
    unfold check_user_id_exists set_user_id_exists
    rw [redisGet_set_self_ex]
    by_cases h3 : now3 < now + 300
    · rw [if_pos h3, if_pos h3]
      cases b <;> rfl
    · rw [if_neg h3, if_neg h3]
  · rw [hnoop2]
    unfold check_user_id_exists
    rw [redisGet_none_mono st _ now now2 h2 hle]

/-- Witness for C5 on the empty cache at time 0. -/
theorem claim_C5_store_ttl_conditional_witness :
    redisGet ([] : RedisState) (scheme_user_token demoUser.token) 0 = none ∧
    redisGet ([] : RedisState) (scheme_user_id_integ "x") 0 = none ∧
    (0 : Nat) ≤ 7 ∧
    set_user_by_token ([] : RedisState) demoUser true 0 = [] :=
  ⟨rfl, rfl, by decide,
   (claim_C5_store_ttl_conditional [] demoUser "x" true 0 7 rfl rfl (by decide)).2.1⟩

/-- C6: `disconnect_user_connections` closes every connection of the user
found in the in-process map and clears the cached session set, so a
following `get_user_sessions` returns the empty list no matter how many
sessions existed. -/
theorem claim_C6_disconnect_all (st : RedisState) (cm : ConnMap) (uid : String)
    (now : Nat) (hwf : ConnMapWF cm) :
    (∀ now2, get_user_sessions
      (disconnect_user_connections st cm uid now).1 uid now2 = []) ∧
    ∀ sid ∈ get_user_sessions st uid now, (cm.lookup sid).isSome = true →
      sid ∈ (disconnect_user_connections st cm uid now).2.2 := by
  constructor
  · intro now2
    simp only [disconnect_user_connections]
    exact get_user_sessions_clear _ uid now2
  · intro sid hmem hsome
    simp only [disconnect_user_connections]
    exact disconnectLoop_closes _ st cm now hwf sid hmem hsome

/-- Witness for C6 on a cache with two sessions, one locally connected. -/
theorem claim_C6_disconnect_all_witness :
    ConnMapWF demoConnMap ∧
    get_user_sessions
      (disconnect_user_connections demoSessionsState demoConnMap "u" 0).1 "u" 5 = [] :=
  ⟨by decide,
   (claim_C6_disconnect_all demoSessionsState demoConnMap "u" 0 (by decide)).1 5⟩

/-- C7: registering a connection with a fresh session id and immediately
deregistering it leaves the user's cached session set equal to its
pre-registration state. -/
theorem claim_C7_register_deregister (st : RedisState) (cm : ConnMap)
    (uid sid : String) (now now2 : Nat)
    (hfresh : sid ∉ get_user_sessions st uid now) :
    get_user_sessions
      (delete_connection (register_connection st cm uid sid now).1
        (register_connection st cm uid sid now).2
        { user_id := uid, session_id := sid } now).1 uid now2 =
      get_user_sessions st uid now := by
  simp only [register_connection, delete_connection, delete_user_session_id]
  rw [get_user_sessions_insert st uid sid now now]
  rw [if_pos (by simp)]
  simp only [erase_append_singleton _ _ hfresh]
  exact get_user_sessions_write _ uid _ now now2

/-- Witness for C7 from the empty cache. -/
theorem claim_C7_register_deregister_witness :
    ("s" ∉ get_user_sessions ([] : RedisState) "u" 0) ∧
    get_user_sessions
      (delete_connection (register_connection [] [] "u" "s" 0).1
        (register_connection [] [] "u" "s" 0).2
        { user_id := "u", session_id := "s" } 0).1 "u" 3 =
      get_user_sessions ([] : RedisState) "u" 0 :=
  ⟨by decide, claim_C7_register_deregister [] [] "u" "s" 0 3 (by decide)⟩

/-- C8: `delete_user_session_id` returns false and leaves the state
untouched when the session id is not stored; when it is stored it returns
true and removes the first occurrence. -/
theorem claim_C8_delete_session (st : RedisState) (uid sid : String)
    (now now2 : Nat) :
    (sid ∉ get_user_sessions st uid now →
      delete_user_session_id st uid sid now = (st, false)) ∧
    (sid ∈ get_user_sessions st uid now →
      (delete_user_session_id st uid sid now).2 = true ∧
      get_user_sessions (delete_user_session_id st uid sid now).1 uid now2 =
        (get_user_sessions st uid now).erase sid) := by
  constructor
  · intro h
    simp only [delete_user_session_id, if_neg h]
  · intro h
    simp only [delete_user_session_id, if_pos h]
    exact ⟨by simp, get_user_sessions_write _ _ _ _ _⟩

/-- Witness for C8: an absent id is a no-op returning false, a present id is
removed returning true. -/
theorem claim_C8_delete_session_witness :
    ("zz" ∉ get_user_sessions demoSessionsState "u" 0) ∧
    delete_user_session_id demoSessionsState "u" "zz" 0 = (demoSessionsState, false) ∧
    ("s1" ∈ get_user_sessions demoSessionsState "u" 0) ∧
    (delete_user_session_id demoSessionsState "u" "s1" 0).2 = true :=
  ⟨by decide,
   (claim_C8_delete_session demoSessionsState "u" "zz" 0 0).1 (by decide),
   by decide,
   ((claim_C8_delete_session demoSessionsState "u" "s1" 0 0).2 (by decide)).1⟩

/-- C10: before TTL expiry, a cached user written unconditionally reads back
as a record equal to the original, plaintext password and token included. -/
theorem claim_C10_cache_user_roundtrip (st : RedisState) (u : AuthorizedUser)
    (now now2 : Nat) (h : now2 < now + 300) :
    get_user_by_token (set_user_by_token st u false now) u.token now2 = some u ∧
    ∃ r, get_user_by_token (set_user_by_token st u false now) u.token now2 = some r ∧
      r.password = u.password ∧ r.token = u.token := by
  have h1 : get_user_by_token (set_user_by_token st u false now) u.token now2 = some u := by
    unfold get_user_by_token set_user_by_token
    rw [redisGet_set_self_ex, if_pos h]
    simp [authorizedUserFromJson_dump]
  exact ⟨h1, u, h1, rfl, rfl⟩

/-- Witness for C10 on the empty cache at times 0 and 7. -/
theorem claim_C10_cache_user_roundtrip_witness :
    (7 : Nat) < 0 + 300 ∧
    get_user_by_token (set_user_by_token [] demoUser false 0) demoUser.token 7 =
      some demoUser :=
  ⟨by decide, (claim_C10_cache_user_roundtrip [] demoUser 0 7 (by decide)).1⟩

/-- C9: a message received on any channel of the documented taxonomy is
forwarded as an EVENT packet (op 2) whose tag is the channel's category name
with the `event_` prefix removed and upper-cased. -/
theorem claim_C9_event_tags (uid did : String) (dt : MessageDestinationType)
    (d : JsonV) :
    event_handler { channel := channel_user_update uid, data := d } =
      some { op := 2, d := some d, t := some "USER_UPDATE" } ∧
    event_handler { channel := channel_user_delete uid, data := d } =
      some { op := 2, d := some d, t := some "USER_DELETE" } ∧
    event_handler { channel := channel_friend_create uid, data := d } =
      some { op := 2, d := some d, t := some "FRIEND_CREATE" } ∧
    event_handler { channel := channel_friend_delete uid, data := d } =
      some { op := 2, d := some d, t := some "FRIEND_DELETE" } ∧
    event_handler { channel := channel_friend_request_receive uid, data := d } =
      some { op := 2, d := some d, t := some "FRIEND_REQUEST_RECEIVE" } ∧
    event_handler { channel := channel_message_create dt did, data := d } =
      some { op := 2, d := some d, t := some "MESSAGE_CREATE" } ∧
    event_handler { channel := channel_message_update dt did, data := d } =
      some { op := 2, d := some d, t := some "MESSAGE_UPDATE" } ∧
    event_handler { channel := channel_message_delete dt did, data := d } =
      some { op := 2, d := some d, t := some "MESSAGE_DELETE" } := by
  refine ⟨?_, ?_, ?_, ?_, ?_, ?_, ?_, ?_⟩
  · rw [channel_user_update_eq]
    simp only [event_handler]
    rw [String.data_append, takeWhile_append_stop notColon
      "event_user_update:".data uid.data ⟨':', by decide, by decide⟩]
    rfl
  · rw [channel_user_delete_eq]
    simp only [event_handler]
    rw [String.data_append, takeWhile_append_stop notColon
      "event_user_delete:".data uid.data ⟨':', by decide, by decide⟩]
    rfl
  · rw [channel_friend_create_eq]
    simp only [event_handler]
    rw [String.data_append, takeWhile_append_stop notColon
      "event_friend_create:".data uid.data ⟨':', by decide, by decide⟩]
    rfl
  · rw [channel_friend_delete_eq]
    simp only [event_handler]
    rw [String.data_append, takeWhile_append_stop notColon
      "event_friend_delete:".data uid.data ⟨':', by decide, by decide⟩]
    rfl
  · rw [channel_friend_request_receive_eq]
    simp only [event_handler]
    rw [String.data_append, takeWhile_append_stop notColon
      "event_friend_request_receive:".data uid.data ⟨':', by decide, by decide⟩]
    rfl
  · rw [channel_message_create_eq]
    simp only [event_handler]
    rw [String.data_append, takeWhile_append_stop notColon
      "event_message_create:".data (dt.render ++ ("," ++ did)).data
      ⟨':', by decide, by decide⟩]
    rfl
  · rw [channel_message_update_eq]
    simp only [event_handler]
    rw [String.data_append, takeWhile_append_stop notColon
      "event_message_update:".data (dt.render ++ ("," ++ did)).data
      ⟨':', by decide, by decide⟩]
    rfl
  · rw [channel_message_delete_eq]
    simp only [event_handler]
    rw [String.data_append, takeWhile_append_stop notColon
      "event_message_delete:".data (dt.render ++ ("," ++ did)).data
      ⟨':', by decide, by decide⟩]
    rfl

/-- C1: in every reachable state of the session machine, under every
interleaving of publish timing, no EVENT packet precedes the READY packet in
the client's trace, and whenever READY is on the wire the readiness flag had
been observed and the subscription worker had completed every subscribe call
without failure. -/
theorem claim_C1_ready_ordering (n : Nat) (s : SessionState)
    (h : SessionReachable n s) :
    traceOk s.sent = true ∧
    (WirePkt.ready ∈ s.sent → s.readyFlag = true ∧
      s.workerPc = s.workerTotal ∧ s.workerFailed = false) := by
  obtain ⟨h1, h2, h3, h4, h5, h6, h7⟩ := sessionInv_reachable h
  refine ⟨h1, fun hm => ?_⟩
  have hr := h4 ((hasReady_iff s.sent).mpr hm)
  exact ⟨hr, (h2 hr).1, (h2 hr).2⟩

/-- Witness for C1 at the final state of a full happy-path interleaving. -/
theorem claim_C1_ready_ordering_witness :
    traceOk demoReadyState.sent = true ∧
    (WirePkt.ready ∈ demoReadyState.sent → demoReadyState.readyFlag = true ∧
      demoReadyState.workerPc = demoReadyState.workerTotal ∧
      demoReadyState.workerFailed = false) := by
  have r0 : SessionReachable 1 (initSession 1) := SessionReachable.init
  have r1 := r0.step (SessionStep.register _ rfl)
  have r2 := r1.step (SessionStep.accept _ rfl)
  have r3 := r2.step (SessionStep.sendHello _ rfl)
  have r4 := r3.step (SessionStep.subscribe _ (by decide) rfl (by decide))
  have r5 := r4.step (SessionStep.setReady _ (by decide) rfl rfl)
  have r6 := r5.step (SessionStep.waitReady _ rfl rfl)
  have r7 := r6.step (SessionStep.sendReady _ rfl)
  have r8 := r7.step (SessionStep.startListener _ rfl)
  have r9 := r8.step (SessionStep.publish _)
  have r10 := r9.step (SessionStep.deliver _ rfl (by decide))
  exact claim_C1_ready_ordering 1 demoReadyState r10

/-- C2 (behavior at the failing input): after the subscription worker fails,
every reachable state still has the connection not closed, the readiness
flag unset, no READY packet sent and the main task stuck no later than the
readiness wait — the handshake is not aborted and the connection is not
closed, contrary to the specified failure semantics. -/
theorem claim_C2_subscribe_failure_no_close (n : Nat) (s : SessionState)
    (h : SessionReachable n s) (hf : s.workerFailed = true) :
    s.closed = false ∧ s.readyFlag = false ∧ WirePkt.ready ∉ s.sent ∧
      s.mainPc ≤ 3 := by
  obtain ⟨h1, h2, h3, h4, h5, h6, h7⟩ := sessionInv_reachable h
  have hrf : s.readyFlag = false := by
    by_contra hc
    have hff := (h2 (by revert hc; cases s.readyFlag <;> simp)).2
    rw [hf] at hff
    cases hff
  have hmain : s.mainPc ≤ 3 := by
    by_contra hc
    have := h3 (by omega)
    rw [hrf] at this
    cases this
  have hclosed : s.closed = false := by
    by_contra hc
    have h6c := h7 (by revert hc; cases s.closed <;> simp)
    omega
  have hnr : WirePkt.ready ∉ s.sent := by
    intro hm
    have := h4 ((hasReady_iff s.sent).mpr hm)
    rw [hrf] at this
    cases this
  exact ⟨hclosed, hrf, hnr, hmain⟩

/-- Witness for C2 at the state reached by register, accept, HELLO, then a
failing subscribe call. -/
theorem claim_C2_subscribe_failure_no_close_witness :
    demoFailedState.workerFailed = true ∧ demoFailedState.closed = false ∧
      WirePkt.ready ∉ demoFailedState.sent := by
  have r0 : SessionReachable 1 (initSession 1) := SessionReachable.init
  have r1 := r0.step (SessionStep.register _ rfl)
  have r2 := r1.step (SessionStep.accept _ rfl)
  have r3 := r2.step (SessionStep.sendHello _ rfl)
  have r4 := r3.step (SessionStep.subscribeFail _ (by decide) rfl (by decide))
  have hres := claim_C2_subscribe_failure_no_close 1 demoFailedState r4 rfl
  exact ⟨rfl, hres.1, hres.2.2.1⟩

end Lapis
